import Mathlib

/-!
Verification development for the retrieval-augmented answering pipeline in
rag_system_openrouter.py (class RadixRAGSystemOpenRouter).

The Python code is shallowly embedded: strings are Lean Strings (Python
indexing and len count characters, as Lean List Char does), the process
environment and filesystem state visible to the constructor are gathered in
an Env record, fallible operations return Except, and the two remote
collaborators that are not part of this repository (the embedding model and
the completion endpoint) appear as explicit deterministic stand-ins,
documented where they occur.
-/

namespace RadixRag

/-! ## Path helpers, mirroring the pathlib operations used by load_documents -/

/-- Split a path into its slash-separated segments (pathlib parts, for
relative paths without a drive). -/
def splitPath : List Char → List (List Char)
  | [] => [[]]
  | c :: cs =>
    match splitPath cs with
    | [] => [[]]
    | seg :: rest => if c = '/' then [] :: seg :: rest else (c :: seg) :: rest

/-- Final path component: Path(p).name. -/
def pathName (p : List Char) : List Char :=
  (splitPath p).getLastD []

/-- Name of the parent directory: Path(p).parent.name (empty for a bare
filename, as in Python). -/
def parentName (p : List Char) : List Char :=
  ((splitPath p).dropLast).getLastD []

/-- Index of the last '.' in a component, if any. -/
def lastDotIdx (n : List Char) : Option Nat :=
  (List.findIdx? (fun c => c == '.') n.reverse).map (fun j => n.length - 1 - j)

/-- File extension of the final component, dot included: Path(p).suffix.
A leading dot (hidden file) does not count as an extension. -/
def pathSuffix (p : List Char) : List Char :=
  let n := pathName p
  match lastDotIdx n with
  | some i => if i = 0 then [] else n.drop i
  | none => []

/-- Boolean test that the second list is a leading segment of the first. -/
def startsWithL : List Char → List Char → Bool
  | _, [] => true
  | [], _ :: _ => false
  | a :: as, b :: bs => a == b && startsWithL as bs

/-- Boolean substring containment, as Python's `needle in haystack`. -/
def hasSubstr : List Char → List Char → Bool
  | [], needle => needle.isEmpty
  | a :: t, needle => startsWithL (a :: t) needle || hasSubstr t needle

/-! ## Data model of load_documents (lines 110-164) -/

/-- Metadata dict attached to a langchain Document.  TextLoader always sets
`source`; the four keys written by load_documents are optional because a
Document coming back out of a persisted vector store need not carry them
(ask reads them with dict.get and an "Unknown" default). -/
structure Metadata where
  source : String
  file_type : Option String
  filename : Option String
  directory : Option String
  content_type : Option String
deriving DecidableEq, Repr

/-- A langchain Document: page content plus metadata. -/
structure Document where
  page_content : String
  metadata : Metadata
deriving DecidableEq, Repr

/-- A file discovered by DirectoryLoader: its path (the loader's `source`
metadata) and its decoded text content. -/
structure RawFile where
  path : String
  content : String
deriving DecidableEq, Repr

/-- content_type assignment of load_documents lines 152-160: substring
tests on the lowercased printed path, then the suffix test. -/
def contentTypeOf (path : String) : String :=
  let lowered := path.data.map Char.toLower
  if hasSubstr lowered "example".data then "example"
  else if hasSubstr lowered "src".data then "source"
  else if pathSuffix path.data = ".md".data then "documentation"
  else "code"

/-- Metadata tagging performed on each loaded document, lines 145-160. -/
def tagDocument (f : RawFile) : Document :=
  { page_content := f.content,
    metadata :=
      { source := f.path,
        file_type := some (String.mk (pathSuffix f.path.data)),
        filename := some (String.mk (pathName f.path.data)),
        directory := some (String.mk (parentName f.path.data)),
        content_type := some (contentTypeOf f.path) } }

/-- Candidate content_category rule as the specification words it
(spec section 4.1): a fixed precedence over path *segments* "examples" and
"src", then the markdown extension.  Stated from the spec so it can be
compared against the loader's actual rule. -/
def specContentCategory (path : String) : String :=
  let segs := splitPath path.data
  if segs.contains "examples".data then "example"
  else if segs.contains "src".data then "source"
  else if pathSuffix path.data = ".md".data then "documentation"
  else "code"

/-! ## Chunker

setup_vectorstore (lines 198-205) delegates chunking to langchain's
RecursiveCharacterTextSplitter with chunk_size 1000, chunk_overlap 200 and
separators ["\n\n", "\n", " ", ""].  That splitter is library code, not part
of this repository, so it is modelled from the spec (section 4.2): split at
the largest valid break point at most max_size characters in, preferring a
paragraph boundary, then a line boundary, then a word boundary, then an
arbitrary character boundary; each chunk after the first begins overlap
characters before the previous chunk's end. -/

/-- Position p (measured in characters from the start of s) sits just after
a blank line, i.e. the two preceding characters are newlines. -/
def paraBoundary (s : List Char) (p : Nat) : Bool :=
  decide (2 ≤ p) && (s.get? (p - 2) == some '\n') && (s.get? (p - 1) == some '\n')

/-- Position p sits just after a newline. -/
def lineBoundary (s : List Char) (p : Nat) : Bool :=
  s.get? (p - 1) == some '\n'

/-- Position p sits just after a space. -/
def wordBoundary (s : List Char) (p : Nat) : Bool :=
  s.get? (p - 1) == some ' '

/-- Largest position in 1..cap satisfying pred, if any. -/
def findLastPos (pred : Nat → Bool) : Nat → Option Nat
  | 0 => none
  | p + 1 => if pred (p + 1) then some (p + 1) else findLastPos pred p

/-- Modelled from the spec: the break point for the next chunk — the
largest valid split point at most max_size characters in, trying paragraph,
line and word boundaries in that order and falling back to an arbitrary
character boundary exactly max_size in (capped by the text length). -/
def splitPoint (s : List Char) (maxSize : Nat) : Nat :=
  match findLastPos (paraBoundary s) (min maxSize s.length) with
  | some p => p
  | none =>
    match findLastPos (lineBoundary s) (min maxSize s.length) with
    | some p => p
    | none =>
      match findLastPos (wordBoundary s) (min maxSize s.length) with
      | some p => p
      | none => min maxSize s.length

/-- End position of the chunk cut from s.  A candidate boundary that does
not reach past the overlap cannot start a fresh chunk (the next chunk must
begin overlap characters before this chunk's end and still advance), so the
character-boundary fallback at max_size applies in that case. -/
def chunkEnd (s : List Char) (maxSize overlap : Nat) : Nat :=
  if splitPoint s maxSize ≤ overlap then maxSize else splitPoint s maxSize

/-- Modelled from the spec: the splitting loop.  Fuel bounds the recursion;
since every step consumes more than overlap characters when
overlap < max_size, fuel equal to the text length always suffices. -/
def splitChunksGo (maxSize overlap : Nat) : Nat → List Char → List (List Char)
  | 0, _ => []
  | fuel + 1, s =>
    if s.isEmpty then []
    else if s.length ≤ maxSize then [s]
    else
      List.take (chunkEnd s maxSize overlap) s ::
        splitChunksGo maxSize overlap fuel
          (List.drop (chunkEnd s maxSize overlap - overlap) s)

/-- Modelled from the spec: split one document's text into overlapping
chunks of at most max_size characters; a document no longer than max_size
yields one chunk, an empty document none. -/
def splitChunks (maxSize overlap : Nat) (s : List Char) : List (List Char) :=
  splitChunksGo maxSize overlap s.length s

/-- Drop each list's first overlap characters and concatenate. -/
def dropJoin (overlap : Nat) (cs : List (List Char)) : List Char :=
  (cs.map (List.drop overlap)).flatten

/-- The reconstruction described by the claim: keep the first chunk whole,
strip the overlapping first overlap characters from every later chunk, and
concatenate in chunk order. -/
def reconstruct (overlap : Nat) : List (List Char) → List Char
  | [] => []
  | c :: cs => c ++ dropJoin overlap cs

/-- split_documents over the loaded documents with the configured
chunk_size 1000 and chunk_overlap 200 (lines 199-204): each chunk keeps its
parent document's metadata. -/
def splitDocuments (docs : List Document) : List Document :=
  docs.flatMap (fun d =>
    (splitChunks 1000 200 d.page_content.data).map
      (fun c => { d with page_content := String.mk c }))

/-! ## Vector index and retrieval

The embedding model (HuggingFace all-MiniLM-L6-v2) and the Chroma store are
library code, not part of this repository.  Modelled from the spec
(sections 3 and 4.3-4.4): a deterministic embedding function text → numeric
vector, records stored with their vectors, and similarity search returning
the top-k records by descending similarity with ties broken by insertion
order (first seen wins). -/

/-- Modelled from the spec: a deterministic embedding — the same text always
maps to the same numeric vector.  An executable stand-in is used since the
real model is outside the repository. -/
def embedText (s : String) : List Int :=
  s.data.map (fun c => Int.ofNat c.toNat)

/-- One persisted record of the vector store: a chunk document plus its
embedding vector. -/
structure EmbRecord where
  doc : Document
  vector : List Int
deriving DecidableEq, Repr

/-- Embed one chunk into a record. -/
def embedRecord (d : Document) : EmbRecord :=
  { doc := d, vector := embedText d.page_content }

/-- Dot product; with normalized embeddings (encode_kwargs sets
normalize_embeddings, line 174) this is the similarity metric. -/
def dotp (v w : List Int) : Int :=
  (List.zipWith (fun a b => a * b) v w).sum

/-- Similarity score of a stored record against a query string. -/
def score (q : String) (r : EmbRecord) : Int :=
  dotp (embedText q) r.vector

/-- Insert a record into a list sorted by descending score, before any
record of equal score that was inserted after it (first seen wins). -/
def insertByScore (q : String) (r : EmbRecord) : List EmbRecord → List EmbRecord
  | [] => [r]
  | x :: xs =>
    if score q x ≤ score q r then r :: x :: xs else x :: insertByScore q r xs

/-- Rank all records by descending score, stably. -/
def rankRecords (q : String) : List EmbRecord → List EmbRecord
  | [] => []
  | r :: rs => insertByScore q r (rankRecords q rs)

/-- The persisted vector store: its embedding records. -/
structure Vectorstore where
  records : List EmbRecord
deriving DecidableEq, Repr

/-- Modelled from the spec: similarity search — the k best-scoring records,
descending, ties by insertion order. -/
def similaritySearch (vs : Vectorstore) (q : String) (k : Nat) : List EmbRecord :=
  (rankRecords q vs.records).take k

/-- The retriever boundary (spec section 4.4): scores are dropped, the
chunk documents are returned in ranked order. -/
def retrieveDocs (vs : Vectorstore) (q : String) (k : Nat) : List Document :=
  (similaritySearch vs q k).map (fun r => r.doc)

/-! ## Constructor, setup_vectorstore, setup_qa_chain and ask -/

/-- Fatal startup failures of the constructor (lines 59-68 and 195-196):
the FileNotFoundError for a missing knowledge base, the sys.exit(1) on a
missing OPENROUTER_API_KEY, and the RuntimeError("No documents found to
process!") raised when a fresh build finds nothing to index. -/
inductive RagError where
  | fileNotFound
  | credentialMissing
  | noDocuments
deriving DecidableEq, Repr

/-- Per-call failure of ask: the RuntimeError("QA chain not initialized")
raised when the chain is not set up (line 268-269). -/
inductive AskError where
  | notReady
deriving DecidableEq, Repr

/-- Externally visible state the constructor reads: whether the knowledge
base path exists, the discovered markdown and rust files, the
OPENROUTER_API_KEY environment variable, whatever persisted vector store
sits at persist_directory (none when os.path.exists is false), and the
remote completion endpoint modelled as a function from prompt to text. -/
structure Env where
  kb_exists : Bool
  md_files : List RawFile
  rs_files : List RawFile
  api_key : Option String
  persisted : Option (List EmbRecord)
  llm : String → String

/-- load_documents (lines 110-164): markdown files then rust files, each
tagged with file_type, filename, directory and content_type metadata. -/
def load_documents (env : Env) : List Document :=
  (env.md_files ++ env.rs_files).map tagDocument

/-- setup_vectorstore (lines 166-216).  If a persisted store exists it is
loaded as-is; otherwise documents are loaded (RuntimeError when there are
none), split, embedded and persisted.  The second component counts how many
chunk embeddings were computed: zero on the load path, one per chunk on the
build path. -/
def setup_vectorstore (env : Env) : Except RagError (Vectorstore × Nat) :=
  match env.persisted with
  | some recs => .ok ({ records := recs }, 0)
  | none =>
    let documents := load_documents env
    if documents.isEmpty then .error .noDocuments
    else
      let splits := splitDocuments documents
      .ok ({ records := splits.map embedRecord }, splits.length)

/-- Result of one qa_chain invocation: the generated text and the retrieved
source documents (return_source_documents is set, line 262). -/
structure QAResult where
  result : String
  source_documents : List Document

/-- The in-memory system object: vectorstore and qa_chain fields, both None
until their setup methods run (lines 39-40). -/
structure RagSystem where
  vectorstore : Option Vectorstore
  qa_chain : Option (String → QAResult)

/-- The "stuff" chain's context block: retrieved chunk texts joined in
retrieval order. -/
def stuffContext (docs : List Document) : String :=
  String.intercalate "\n\n" (docs.map (fun d => d.page_content))

/-- The fixed prompt template of setup_qa_chain (lines 223-237) with
context and question interpolated. -/
def promptTemplate (context question : String) : String :=
  "You are an expert RadixDLT and Scrypto developer assistant. Use the provided context to answer questions about RadixDLT, Scrypto, blockchain development, and Rust programming.\n\nGuidelines:\n- Provide accurate, technical information based on the context\n- Include relevant code examples when available\n- Explain concepts clearly for developers\n- If the context doesn't contain enough information, say so\n- Focus on practical, actionable advice\n\nContext:\n" ++ context ++ "\n\nQuestion: " ++ question ++ "\n\nAnswer: "

/-- setup_qa_chain (lines 218-264): a retriever over the store with k = 6,
the prompt template, and the remote completion endpoint. -/
def setup_qa_chain (llm : String → String) (vs : Vectorstore) : String → QAResult :=
  fun question =>
    let docs := retrieveDocs vs question 6
    { result := llm (promptTemplate (stuffContext docs) question),
      source_documents := docs }

/-- The constructor __init__ (lines 31-78): knowledge-base existence check,
API-key check (sys.exit(1) when os.getenv returns None or an empty string),
then setup_vectorstore and setup_qa_chain. -/
def radixInit (env : Env) : Except RagError RagSystem :=
  if env.kb_exists = false then .error .fileNotFound
  else if env.api_key.getD "" = "" then .error .credentialMissing
  else
    match setup_vectorstore env with
    | .error e => .error e
    | .ok (vs, _) =>
      .ok { vectorstore := some vs, qa_chain := some (setup_qa_chain env.llm vs) }

/-- One source-citation record of a Response (lines 286-291). -/
structure SourceInfo where
  filename : String
  file_type : String
  content_type : String
  snippet : String
deriving DecidableEq, Repr

/-- The Response dict returned by ask (lines 278-292). -/
structure Response where
  question : String
  answer : String
  sources : List SourceInfo
deriving DecidableEq, Repr

/-- Source-citation record built from one retrieved chunk (lines 286-291):
metadata.get with an "Unknown" default for each field, and the snippet is
the page content truncated to its first 200 characters plus "..." when it
is longer than 200 characters. -/
def mkSourceInfo (doc : Document) : SourceInfo :=
  { filename := doc.metadata.filename.getD "Unknown",
    file_type := doc.metadata.file_type.getD "Unknown",
    content_type := doc.metadata.content_type.getD "Unknown",
    snippet :=
      if doc.page_content.length > 200
      then String.mk (doc.page_content.data.take 200) ++ "..."
      else doc.page_content }

/-- ask (lines 266-294): RuntimeError when the chain is not initialized,
otherwise run the chain and assemble the Response with one source record
per retrieved document, in retrieval order. -/
def ask (sys : RagSystem) (question : String) : Except AskError Response :=
  match sys.qa_chain with
  | none => .error .notReady
  | some chain =>
    let result := chain question
    .ok { question := question,
          answer := result.result,
          sources := result.source_documents.map mkSourceInfo }

/-! ## Concrete instances used as counterexamples and witnesses -/

/-- A small markdown file of the knowledge base. -/
def rawIntro : RawFile :=
  { path := "kb/cleaned/intro.md", content := "Radix intro." }

/-- Its loaded, tagged document. -/
def okDoc : Document := tagDocument rawIntro

/-- A document whose text is longer than the 200-character preview bound. -/
def longDoc : Document :=
  tagDocument { path := "kb/cleaned/long.md",
                content := String.mk (List.replicate 250 'x') }

/-- Sample metadata for chunk-reconstruction inputs. -/
def wMeta : Metadata :=
  { source := "kb/cleaned/doc.md", file_type := some ".md",
    filename := some "doc.md", directory := some "cleaned",
    content_type := some "documentation" }

/-- A document with paragraph, line and word boundaries in its text. -/
def wDoc : Document :=
  { page_content := "ab\n\ncd efgh ij kl mno p", metadata := wMeta }

/-- An environment with an existing knowledge-base path, an API key, no
persisted store and zero documents in the knowledge base. -/
def emptyKbEnv : Env :=
  { kb_exists := true, md_files := [], rs_files := [],
    api_key := some "sk-test", persisted := none,
    llm := fun _ => "I could not find relevant information." }

/-- An environment holding a persisted vector store. -/
def persistedEnv : Env :=
  { kb_exists := true, md_files := [], rs_files := [],
    api_key := some "sk-test", persisted := some [embedRecord okDoc],
    llm := fun _ => "answer text" }

/-- An environment with one knowledge-base file and no persisted store. -/
def freshEnv : Env :=
  { kb_exists := true, md_files := [rawIntro], rs_files := [],
    api_key := some "sk-test", persisted := none,
    llm := fun _ => "answer text" }

/-- An environment whose OPENROUTER_API_KEY is absent. -/
def noKeyEnv : Env :=
  { kb_exists := true, md_files := [rawIntro], rs_files := [],
    api_key := none, persisted := none, llm := fun _ => "answer text" }

/-- Two distinct chunks originating from the same knowledge-base file. -/
def sameFileDocA : Document :=
  tagDocument { path := "kb/cleaned/guide.md",
                content := "Blueprints are declared with a module." }

/-- Second chunk of the same file. -/
def sameFileDocB : Document :=
  tagDocument { path := "kb/cleaned/guide.md",
                content := "Components instantiate blueprints." }

/-- A vector store holding the two same-file chunks. -/
def dupVs : Vectorstore :=
  { records := [embedRecord sameFileDocA, embedRecord sameFileDocB] }

/-- A ready system over dupVs, built through setup_qa_chain. -/
def dupSys : RagSystem :=
  { vectorstore := some dupVs,
    qa_chain := some (setup_qa_chain (fun _ => "answer text") dupVs) }

/-- A vector store with two records for retrieval-depth comparisons. -/
def wVs : Vectorstore :=
  { records := [embedRecord sameFileDocA, embedRecord okDoc] }

/-- A chain returning the same document twice. -/
def wChain : String → QAResult :=
  fun _ => { result := "ans", source_documents := [okDoc, okDoc] }

/-- System around wChain. -/
def wSys3 : RagSystem := { vectorstore := none, qa_chain := some wChain }

/-- A chain returning a short and a long document. -/
def wChain7 : String → QAResult :=
  fun _ => { result := "ans", source_documents := [okDoc, longDoc] }

/-- System around wChain7. -/
def wSys7 : RagSystem := { vectorstore := none, qa_chain := some wChain7 }

/-- A chunk whose metadata carries none of the filename, file_type and
content_type keys (as for a record read back from an older store). -/
def bareDoc : Document :=
  { page_content := "orphan chunk",
    metadata := { source := "kb/x", file_type := none, filename := none,
                  directory := none, content_type := none } }

/-- A chunk whose metadata lacks only the content_type key. -/
def partialDoc : Document :=
  { page_content := "chunk with partial metadata",
    metadata := { source := "kb/y.md", file_type := some ".md",
                  filename := some "y.md", directory := some "kb",
                  content_type := none } }

/-- A chain retrieving the bare-metadata chunk and the partial one. -/
def wChain10 : String → QAResult :=
  fun _ => { result := "a", source_documents := [bareDoc, partialDoc] }

/-- System around wChain10. -/
def wSys10 : RagSystem := { vectorstore := none, qa_chain := some wChain10 }

/-- A system whose qa_chain was never initialized. -/
def unreadySys : RagSystem := { vectorstore := none, qa_chain := none }

/-! ## Helper lemmas -/

theorem startsWithL_iff (l n : List Char) : startsWithL l n = true ↔ n <+: l := by
  induction l generalizing n with
  | nil =>
    cases n with
    | nil => simp [startsWithL]
    | cons b bs => simp [startsWithL]
  | cons a as ih =>
    cases n with
    | nil => simp [startsWithL, List.nil_prefix]
    | cons b bs =>
      simp only [startsWithL, Bool.and_eq_true, beq_iff_eq, ih,
        List.cons_prefix_cons]
      exact ⟨fun ⟨h1, h2⟩ => ⟨h1.symm, h2⟩, fun ⟨h1, h2⟩ => ⟨h1.symm, h2⟩⟩

theorem hasSubstr_iff (l n : List Char) : hasSubstr l n = true ↔ n <:+: l := by
  induction l with
  | nil => simp [hasSubstr, List.infix_nil, List.isEmpty_iff]
  | cons a t ih =>
    simp only [hasSubstr, Bool.or_eq_true, startsWithL_iff, ih,
      List.infix_cons_iff]

theorem overlap_lt_chunkEnd (s : List Char) (maxSize overlap : Nat)
    (h : overlap < maxSize) : overlap < chunkEnd s maxSize overlap := by
  unfold chunkEnd
  by_cases hc : splitPoint s maxSize ≤ overlap
  · rw [if_pos hc]; exact h
  · rw [if_neg hc]; omega

theorem dropJoin_nil (overlap : Nat) : dropJoin overlap [] = [] := rfl

theorem dropJoin_cons (overlap : Nat) (c : List Char) (cs : List (List Char)) :
    dropJoin overlap (c :: cs) = List.drop overlap c ++ dropJoin overlap cs := by
  simp [dropJoin]

theorem reconstruct_cons (overlap : Nat) (c : List Char) (cs : List (List Char)) :
    reconstruct overlap (c :: cs) = c ++ dropJoin overlap cs := rfl

theorem dropJoin_splitChunksGo (maxSize overlap : Nat) (hov : overlap < maxSize) :
    ∀ fuel s, s.length ≤ fuel →
      dropJoin overlap (splitChunksGo maxSize overlap fuel s)
        = List.drop overlap s := by
  intro fuel
  induction fuel with
  | zero =>
    intro s hs
    have hnil : s = [] := List.length_eq_zero.mp (Nat.le_zero.mp hs)
    subst hnil
    simp [splitChunksGo, dropJoin]
  | succ n ih =>
    intro s hs
    cases s with
    | nil => simp [splitChunksGo, dropJoin]
    | cons a t =>
      simp only [splitChunksGo, List.isEmpty_cons, Bool.false_eq_true,
        if_false]
      by_cases hlen : (a :: t).length ≤ maxSize
      · rw [if_pos hlen, dropJoin_cons, dropJoin_nil, List.append_nil]
      · rw [if_neg hlen]
        have hovE : overlap < chunkEnd (a :: t) maxSize overlap :=
          overlap_lt_chunkEnd _ _ _ hov
        have hrest : (List.drop (chunkEnd (a :: t) maxSize overlap - overlap)
            (a :: t)).length ≤ n := by
          rw [List.length_drop]
          rw [List.length_cons] at hs ⊢
          omega
        rw [dropJoin_cons, ih _ hrest, List.drop_take, List.drop_drop]
        have hE : chunkEnd (a :: t) maxSize overlap - overlap + overlap
            = chunkEnd (a :: t) maxSize overlap := by omega
        rw [hE]
        have h2 : List.drop (chunkEnd (a :: t) maxSize overlap) (a :: t)
            = List.drop (chunkEnd (a :: t) maxSize overlap - overlap)
                (List.drop overlap (a :: t)) := by
          rw [List.drop_drop]
          congr 1
          omega
        rw [h2, List.take_append_drop]

theorem mem_insertByScore {q : String} {r x : EmbRecord} :
    ∀ {l : List EmbRecord}, x ∈ insertByScore q r l → x = r ∨ x ∈ l := by
  intro l
  induction l with
  | nil =>
    intro h
    simp only [insertByScore, List.mem_singleton] at h
    exact Or.inl h
  | cons a t ih =>
    intro h
    simp only [insertByScore] at h
    by_cases hc : score q a ≤ score q r
    · rw [if_pos hc] at h
      rcases List.mem_cons.mp h with h1 | h2
      · exact Or.inl h1
      · exact Or.inr h2
    · rw [if_neg hc] at h
      rcases List.mem_cons.mp h with h1 | h2
      · exact Or.inr (List.mem_cons.mpr (Or.inl h1))
      · rcases ih h2 with h3 | h4
        · exact Or.inl h3
        · exact Or.inr (List.mem_cons.mpr (Or.inr h4))

theorem pairwise_insertByScore (q : String) (r : EmbRecord) :
    ∀ {l : List EmbRecord},
      List.Pairwise (fun a b => score q b ≤ score q a) l →
      List.Pairwise (fun a b => score q b ≤ score q a) (insertByScore q r l) := by
  intro l
  induction l with
  | nil => intro _; simp [insertByScore]
  | cons a t ih =>
    intro hp
    rcases List.pairwise_cons.mp hp with ⟨ha, ht⟩
    simp only [insertByScore]
    by_cases hc : score q a ≤ score q r
    · rw [if_pos hc]
      refine List.pairwise_cons.mpr ⟨?_, hp⟩
      intro b hb
      rcases List.mem_cons.mp hb with h1 | h2
      · subst h1; exact hc
      · exact le_trans (ha b h2) hc
    · rw [if_neg hc]
      refine List.pairwise_cons.mpr ⟨?_, ih ht⟩
      intro b hb
      rcases mem_insertByScore hb with h1 | h2
      · subst h1; exact le_of_lt (not_le.mp hc)
      · exact ha b h2

theorem pairwise_rankRecords (q : String) (l : List EmbRecord) :
    List.Pairwise (fun a b => score q b ≤ score q a) (rankRecords q l) := by
  induction l with
  | nil => simp [rankRecords]
  | cons r rs ih =>
    simp only [rankRecords]
    exact pairwise_insertByScore q r ih

/-! ## Claim theorems -/

/-- Claim C1, counterexample.  With zero documents in the knowledge base
and no persisted store, building does not produce an index with zero
records: setup_vectorstore raises RuntimeError("No documents found to
process!") and the constructor fails the same way, so no ask call ever
succeeds with empty sources.  This contradicts the claim that the build
succeeds and every ask returns a Response with empty sources. -/
theorem C1_empty_kb_counterexample :
    setup_vectorstore emptyKbEnv = .error .noDocuments ∧
    radixInit emptyKbEnv = .error .noDocuments := ⟨rfl, rfl⟩

/-- Claim C1, amended.  If the knowledge base contains zero documents and
no persisted index exists, setup_vectorstore fails fatally with the
no-documents RuntimeError instead of building an empty index, and the
constructor never returns a ready pipeline, so ask is never served. -/
theorem C1_empty_kb_amended (env : Env) (hp : env.persisted = none)
    (hmd : env.md_files = []) (hrs : env.rs_files = []) :
    setup_vectorstore env = .error .noDocuments ∧
    (radixInit env).isOk = false := by
  have hsetup : setup_vectorstore env = .error .noDocuments := by
    simp [setup_vectorstore, hp, load_documents, hmd, hrs]
  refine ⟨hsetup, ?_⟩
  by_cases hkb : env.kb_exists = false
  · simp [radixInit, hkb, Except.isOk, Except.toBool]
  · by_cases hkey : env.api_key.getD "" = ""
    · simp [radixInit, hkb, hkey, Except.isOk, Except.toBool]
    · simp [radixInit, hkb, hkey, hsetup, Except.isOk, Except.toBool]

/-- Claim C1, witness for the amended theorem at the concrete empty
knowledge base. -/
theorem C1_empty_kb_witness :
    setup_vectorstore emptyKbEnv = .error .noDocuments ∧
    (radixInit emptyKbEnv).isOk = false :=
  C1_empty_kb_amended emptyKbEnv rfl rfl rfl

/-- Claim C2: splitting any document with overlap < max_size, then
stripping the overlapping first overlap characters from every chunk after
the first and concatenating in chunk order, reproduces the document's
content exactly. -/
theorem C2_chunk_reconstruction (D : Document) (maxSize overlap : Nat)
    (h : overlap < maxSize) :
    reconstruct overlap (splitChunks maxSize overlap D.page_content.data)
      = D.page_content.data := by
  unfold splitChunks
  generalize D.page_content.data = s
  cases s with
  | nil => simp [splitChunksGo, reconstruct]
  | cons a t =>
    rw [List.length_cons]
    simp only [splitChunksGo, List.isEmpty_cons, Bool.false_eq_true, if_false]
    by_cases hlen : (a :: t).length ≤ maxSize
    · rw [if_pos hlen, reconstruct_cons, dropJoin_nil, List.append_nil]
    · rw [if_neg hlen]
      have hovE : overlap < chunkEnd (a :: t) maxSize overlap :=
        overlap_lt_chunkEnd _ _ _ h
      have hrest : (List.drop (chunkEnd (a :: t) maxSize overlap - overlap)
          (a :: t)).length ≤ t.length := by
        rw [List.length_drop, List.length_cons]
        omega
      rw [reconstruct_cons, dropJoin_splitChunksGo maxSize overlap h _ _ hrest,
        List.drop_drop]
      have hE : chunkEnd (a :: t) maxSize overlap - overlap + overlap
          = chunkEnd (a :: t) maxSize overlap := by omega
      rw [hE, List.take_append_drop]

/-- Claim C2, witness: a concrete document with paragraph, line and word
boundaries, split with max_size 10 and overlap 3, reconstructs exactly. -/
theorem C2_chunk_reconstruction_witness :
    (3 : Nat) < 10 ∧
    reconstruct 3 (splitChunks 10 3 wDoc.page_content.data)
      = wDoc.page_content.data :=
  ⟨by decide, C2_chunk_reconstruction wDoc 10 3 (by decide)⟩

/-- Claim C3, counterexample.  A knowledge base in which two distinct
retrieved chunks originate from the same file "guide.md" yields a Response
whose sources cite that filename twice: the Response Assembler performs no
de-duplication, contradicting the claim. -/
theorem C3_dedup_counterexample :
    (Except.toOption (ask dupSys "How do I declare a blueprint?")).map
        (fun r => (r.sources.map (fun s => s.filename)).count "guide.md")
      = some 2 := rfl

/-- Claim C3, amended.  The assembled Response packages the synthesized
answer with one source-citation record per retrieved chunk, in retrieval
order, with no de-duplication: two retrieved chunks originating from the
same file appear as two separate citations. -/
theorem C3_sources_not_deduplicated (sys : RagSystem)
    (chain : String → QAResult) (q : String)
    (h : sys.qa_chain = some chain) :
    ∃ r, ask sys q = .ok r ∧
      r.sources.length = (chain q).source_documents.length ∧
      ∀ i : Nat, r.sources[i]? = ((chain q).source_documents[i]?).map mkSourceInfo := by
  refine ⟨({ question := q, answer := (chain q).result,
             sources := (chain q).source_documents.map mkSourceInfo } : Response),
    by simp [ask, h], by simp, ?_⟩
  intro i
  simp [List.getElem?_map]

/-- Claim C3, witness for the amended theorem: a chain retrieving the same
document twice yields exactly two corresponding citation records. -/
theorem C3_sources_witness :
    ∃ r, ask wSys3 "q" = .ok r ∧
      r.sources.length = (wChain "q").source_documents.length ∧
      ∀ i : Nat, r.sources[i]? = ((wChain "q").source_documents[i]?).map mkSourceInfo :=
  C3_sources_not_deduplicated wSys3 wChain "q" rfl

/-- Claim C4, counterexample.  The loader's rule tests the substring
"example" of the lowercased path, not an "examples" path segment: the file
kb/counterexample.rs has no "examples" or "src" segment and no markdown
extension, so the claimed precedence assigns "code", yet load_documents
tags it "example". -/
theorem C4_category_counterexample :
    (tagDocument { path := "kb/counterexample.rs",
                   content := "fn main()" }).metadata.content_type
      = some "example" ∧
    specContentCategory "kb/counterexample.rs" = "code" := ⟨rfl, rfl⟩

/-- Claim C4, amended.  The loader assigns content_type by a fixed
precedence over the lowercased path string: containing the substring
"example" yields example; otherwise containing the substring "src" yields
source; otherwise a markdown extension yields documentation; otherwise
code. -/
theorem C4_category_amended (f : RawFile) :
    (tagDocument f).metadata.content_type = some (
      if "example".data <:+: f.path.data.map Char.toLower then "example"
      else if "src".data <:+: f.path.data.map Char.toLower then "source"
      else if pathSuffix f.path.data = ".md".data then "documentation"
      else "code") := by
  have h1 := hasSubstr_iff (f.path.data.map Char.toLower) "example".data
  have h2 := hasSubstr_iff (f.path.data.map Char.toLower) "src".data
  simp only [tagDocument, contentTypeOf]
  congr 1
  by_cases c1 : "example".data <:+: f.path.data.map Char.toLower
  · rw [if_pos (h1.mpr c1), if_pos c1]
  · rw [if_neg (fun hb => c1 (h1.mp hb)), if_neg c1]
    by_cases c2 : "src".data <:+: f.path.data.map Char.toLower
    · rw [if_pos (h2.mpr c2), if_pos c2]
    · rw [if_neg (fun hb => c2 (h2.mp hb)), if_neg c2]

/-- Claim C5: at startup, if persisted index data exists at the configured
location the pipeline loads it with zero embedding computations; it embeds
(once per chunk) and persists a new index only when no persisted store is
found. -/
theorem C5_startup_policy (env : Env) :
    (∀ recs, env.persisted = some recs →
      setup_vectorstore env = .ok ({ records := recs }, 0)) ∧
    (env.persisted = none → (load_documents env).isEmpty = false →
      setup_vectorstore env =
        .ok ({ records := (splitDocuments (load_documents env)).map embedRecord },
             (splitDocuments (load_documents env)).length)) := by
  constructor
  · intro recs hp
    simp [setup_vectorstore, hp]
  · intro hp hne
    simp [setup_vectorstore, hp, hne]

/-- Claim C5, witness: a persisted store is loaded with zero embeddings;
a fresh environment builds, embedding each chunk once. -/
theorem C5_startup_policy_witness :
    setup_vectorstore persistedEnv = .ok ({ records := [embedRecord okDoc] }, 0) ∧
    setup_vectorstore freshEnv =
      .ok ({ records := (splitDocuments (load_documents freshEnv)).map embedRecord },
           (splitDocuments (load_documents freshEnv)).length) :=
  ⟨(C5_startup_policy persistedEnv).1 [embedRecord okDoc] rfl,
   (C5_startup_policy freshEnv).2 rfl rfl⟩

/-- Claim C6: retrieval returns at most k chunks, ordered by non-increasing
similarity score, and for k1 < k2 over the same index and query the
shallower result is a prefix of the deeper one. -/
theorem C6_retrieval_monotonic (vs : Vectorstore) (q : String) (k1 k2 : Nat)
    (h : k1 < k2) :
    (retrieveDocs vs q k1).length ≤ k1 ∧
    List.Pairwise (fun a b => score q b ≤ score q a) (similaritySearch vs q k1) ∧
    retrieveDocs vs q k1 <+: retrieveDocs vs q k2 := by
  refine ⟨?_, ?_, ?_⟩
  · simp only [retrieveDocs, similaritySearch, List.length_map,
      List.length_take]
    exact Nat.le_trans (Nat.min_le_left _ _) (Nat.le_refl _)
  · exact List.Pairwise.sublist (List.take_sublist _ _)
      (pairwise_rankRecords q vs.records)
  · unfold retrieveDocs similaritySearch
    have hpre : List.take k1 (rankRecords q vs.records)
        <+: List.take k2 (rankRecords q vs.records) := by
      have ht := List.take_prefix k1 (List.take k2 (rankRecords q vs.records))
      rwa [List.take_take, Nat.min_eq_left (Nat.le_of_lt h)] at ht
    rcases hpre with ⟨t, ht⟩
    exact ⟨t.map (fun r => r.doc), by rw [← List.map_append, ht]⟩

/-- Claim C6, witness at a concrete two-record store with depths 1 < 2. -/
theorem C6_retrieval_witness :
    (retrieveDocs wVs "blueprint" 1).length ≤ 1 ∧
    List.Pairwise (fun a b => score "blueprint" b ≤ score "blueprint" a)
      (similaritySearch wVs "blueprint" 1) ∧
    retrieveDocs wVs "blueprint" 1 <+: retrieveDocs wVs "blueprint" 2 :=
  C6_retrieval_monotonic wVs "blueprint" 1 2 (by decide)

/-- Claim C7: the Response carries exactly one source-citation record per
retrieved chunk, in retrieval order; each snippet is the chunk's full text
when its length is within the 200-character preview bound, and otherwise
its first 200 characters followed by the "..." ellipsis marker. -/
theorem C7_citation_per_chunk (sys : RagSystem) (chain : String → QAResult)
    (q : String) (h : sys.qa_chain = some chain) :
    ∃ r, ask sys q = .ok r ∧
      r.sources.length = (chain q).source_documents.length ∧
      ∀ (i : Nat) (doc : Document), (chain q).source_documents[i]? = some doc →
        r.sources[i]? = some
          { filename := doc.metadata.filename.getD "Unknown",
            file_type := doc.metadata.file_type.getD "Unknown",
            content_type := doc.metadata.content_type.getD "Unknown",
            snippet :=
              if doc.page_content.length ≤ 200 then doc.page_content
              else String.mk (doc.page_content.data.take 200) ++ "..." } := by
  refine ⟨({ question := q, answer := (chain q).result,
             sources := (chain q).source_documents.map mkSourceInfo } : Response),
    by simp [ask, h], by simp, ?_⟩
  intro i doc hdoc
  rw [List.getElem?_map, hdoc]
  have hsnip : (if doc.page_content.length > 200
        then String.mk (doc.page_content.data.take 200) ++ "..."
        else doc.page_content)
      = (if doc.page_content.length ≤ 200 then doc.page_content
        else String.mk (doc.page_content.data.take 200) ++ "...") := by
    by_cases hl : doc.page_content.length ≤ 200
    · rw [if_neg (by omega), if_pos hl]
    · rw [if_pos (by omega), if_neg hl]
  simp [mkSourceInfo, hsnip]

/-- Claim C7, witness: one chunk within the preview bound and one beyond
it, retrieved together. -/
theorem C7_citation_witness :
    ∃ r, ask wSys7 "q" = .ok r ∧
      r.sources.length = (wChain7 "q").source_documents.length ∧
      ∀ (i : Nat) (doc : Document), (wChain7 "q").source_documents[i]? = some doc →
        r.sources[i]? = some
          { filename := doc.metadata.filename.getD "Unknown",
            file_type := doc.metadata.file_type.getD "Unknown",
            content_type := doc.metadata.content_type.getD "Unknown",
            snippet :=
              if doc.page_content.length ≤ 200 then doc.page_content
              else String.mk (doc.page_content.data.take 200) ++ "..." } :=
  C7_citation_per_chunk wSys7 wChain7 "q" rfl

/-- Claim C8: when the OPENROUTER_API_KEY credential is absent at
construction time (and the knowledge base exists, so the earlier
FileNotFoundError does not preempt), the constructor fails with the
credential-missing fatal error and the pipeline never reaches Ready. -/
theorem C8_credential_missing (env : Env) (hkb : env.kb_exists = true)
    (hkey : env.api_key = none) :
    radixInit env = .error .credentialMissing ∧
    (radixInit env).isOk = false := by
  have h1 : radixInit env = .error .credentialMissing := by
    simp [radixInit, hkb, hkey]
  exact ⟨h1, by rw [h1]; rfl⟩

/-- Claim C8, witness at a concrete environment lacking the key. -/
theorem C8_credential_witness :
    radixInit noKeyEnv = .error .credentialMissing ∧
    (radixInit noKeyEnv).isOk = false :=
  C8_credential_missing noKeyEnv rfl rfl

/-- Claim C9: ask invoked on a pipeline whose qa_chain was never
initialized fails with the not-ready RuntimeError; no partial Response is
returned. -/
theorem C9_ask_not_ready (sys : RagSystem) (q : String)
    (h : sys.qa_chain = none) :
    ask sys q = .error .notReady ∧ (ask sys q).isOk = false := by
  have h1 : ask sys q = .error .notReady := by simp [ask, h]
  exact ⟨h1, by rw [h1]; rfl⟩

/-- Claim C9, witness at a concrete uninitialized system. -/
theorem C9_ask_not_ready_witness :
    ask unreadySys "What is Scrypto?" = .error .notReady ∧
    (ask unreadySys "What is Scrypto?").isOk = false :=
  C9_ask_not_ready unreadySys "What is Scrypto?" rfl

/-- Claim C10: for every retrieved chunk, whichever of the filename,
file_type and content_type metadata entries are missing, ask still
succeeds and the chunk's citation record carries the string "Unknown" in
each missing field. -/
theorem C10_unknown_defaults (sys : RagSystem) (chain : String → QAResult)
    (q : String) (doc : Document) (h : sys.qa_chain = some chain)
    (hmem : doc ∈ (chain q).source_documents) :
    ∃ r, ask sys q = .ok r ∧
      mkSourceInfo doc ∈ r.sources ∧
      (doc.metadata.filename = none → (mkSourceInfo doc).filename = "Unknown") ∧
      (doc.metadata.file_type = none → (mkSourceInfo doc).file_type = "Unknown") ∧
      (doc.metadata.content_type = none → (mkSourceInfo doc).content_type = "Unknown") := by
  refine ⟨({ question := q, answer := (chain q).result,
             sources := (chain q).source_documents.map mkSourceInfo } : Response),
    by simp [ask, h], List.mem_map_of_mem mkSourceInfo hmem, ?_, ?_, ?_⟩
  · intro hf; simp [mkSourceInfo, hf]
  · intro ht; simp [mkSourceInfo, ht]
  · intro hc; simp [mkSourceInfo, hc]

/-- Claim C10, witness: one retrieved chunk carrying no metadata keys and
one lacking only content_type, in the same ask call. -/
theorem C10_unknown_defaults_witness :
    (∃ r, ask wSys10 "q" = .ok r ∧
      mkSourceInfo bareDoc ∈ r.sources ∧
      (bareDoc.metadata.filename = none →
        (mkSourceInfo bareDoc).filename = "Unknown") ∧
      (bareDoc.metadata.file_type = none →
        (mkSourceInfo bareDoc).file_type = "Unknown") ∧
      (bareDoc.metadata.content_type = none →
        (mkSourceInfo bareDoc).content_type = "Unknown")) ∧
    (∃ r, ask wSys10 "q" = .ok r ∧
      mkSourceInfo partialDoc ∈ r.sources ∧
      (partialDoc.metadata.filename = none →
        (mkSourceInfo partialDoc).filename = "Unknown") ∧
      (partialDoc.metadata.file_type = none →
        (mkSourceInfo partialDoc).file_type = "Unknown") ∧
      (partialDoc.metadata.content_type = none →
        (mkSourceInfo partialDoc).content_type = "Unknown")) :=
  ⟨C10_unknown_defaults wSys10 wChain10 "q" bareDoc rfl
      (List.mem_cons_self bareDoc [partialDoc]),
   C10_unknown_defaults wSys10 wChain10 "q" partialDoc rfl
      (List.mem_cons_of_mem bareDoc (List.mem_cons_self partialDoc []))⟩

end RadixRag
